import Mathlib

/-!
Shallow embedding of the fatx-tools-py recovery core:
src/fatx/analysis/orphan.py and src/fatx/analysis/signature.py.

The volume/mount layer, the FatXDirent base class and the constants module
are not part of the two source files; where a claim depends on them they are
modelled from the spec (each such definition is marked in its doc comment).
-/

namespace FatxTools

/-! ### Volume model

Modelled from the spec: the volume layer is an external collaborator exposing
max_clusters, a seekable byte stream (infile), seek_to_cluster and
seek_file_area.  The byte stream is a list of byte values with an explicit
cursor position; seek_to_cluster positions the cursor at the byte offset
corresponding to a cluster index, given here by the abstract field
clusterByteOffset. -/
structure FatXVolume where
  maxClusters : Nat
  data : List Nat
  clusterByteOffset : Nat → Nat

/-- Reading n bytes from the stream at position pos: returns up to n bytes
and advances the cursor by the number of bytes actually returned. -/
def streamRead (data : List Nat) (pos n : Nat) : List Nat × Nat :=
  let buf := (data.drop pos).take n
  (buf, pos + buf.length)

/-! ### Timestamps -/

/-- The parsed timestamp fields read by is_valid: dt.year, dt.month, dt.day,
dt.hour, dt.min, dt.sec. -/
structure FatXTimeStamp where
  year : Nat
  month : Nat
  day : Nat
  hour : Nat
  min : Nat
  sec : Nat

def isLeapYear (y : Nat) : Bool :=
  y % 4 == 0 && (y % 100 != 0 || y % 400 == 0)

def daysInMonth (y m : Nat) : Nat :=
  if m == 2 then (if isLeapYear y then 29 else 28)
  else if m == 4 || m == 6 || m == 9 || m == 11 then 30
  else 31

/-- Modelled from the spec: the Python datetime constructor used inside
is_valid_date succeeds iff every component is a constructible calendar value
(year within MINYEAR..MAXYEAR, month 1..12, day 1..days-in-month,
hour 0..23, minute 0..59, second 0..59); otherwise it raises ValueError. -/
def datetimeConstructible (y m d h mi s : Nat) : Bool :=
  1 ≤ y && y ≤ 9999 &&
  1 ≤ m && m ≤ 12 &&
  1 ≤ d && d ≤ daysInMonth y m &&
  h ≤ 23 && mi ≤ 59 && s ≤ 59

/-- orphan.py is_valid_date: absent timestamp rejected; year compared against
the current year only; then the datetime constructor is tried and a
ValueError is translated to false.  todayYear stands for date.today().year. -/
def is_valid_date (todayYear : Nat) (dt : Option FatXTimeStamp) : Bool :=
  match dt with
  | none => false
  | some t =>
    if ¬ (t.year ≤ todayYear) then false
    else if ¬ datetimeConstructible t.year t.month t.day t.hour t.min t.sec then false
    else true

/-! ### VALID_CHARS (orphan.py lines 17-29)

Each component below is the cp437 encoding of the corresponding string
literal in the source, written out as byte values.  The two large literals
encode to the contiguous ranges 0x80..0xE4 and 0xE6..0xFE, as the source
comments state. -/
def VALID_CHARS : List Nat :=
  -- string.ascii_uppercase, 0x41..0x5A
  List.range' 0x41 26 ++
  -- string.digits, 0x30..0x39
  List.range' 0x30 10 ++
  -- the punctuation literal: bang hash dollar percent ampersand apostrophe
  -- parens hyphen at brackets caret underscore backquote braces tilde space
  [0x21, 0x23, 0x24, 0x25, 0x26, 0x27, 0x28, 0x29, 0x2D, 0x40,
   0x5B, 0x5D, 0x5E, 0x5F, 0x60, 0x7B, 0x7D, 0x7E, 0x20] ++
  -- string.ascii_lowercase, 0x61..0x7A
  List.range' 0x61 26 ++
  -- dot and square brackets
  [0x2E, 0x5B, 0x5D] ++
  -- first cp437 block, 0x80 to 0xE4 inclusive
  List.range' 0x80 0x65 ++
  -- second cp437 block, 0xE6 to 0xFE inclusive
  List.range' 0xE6 0x19 ++
  [0xFF] ++
  -- 0x9D
  [0x9D] ++
  -- 0xE5
  [0xE5]

/-! ### The dirent candidate

Modelled fields file_name (decoded display name), is_directory (variant
discriminator) and the timestamps come from the FatXDirent base class, which
is an external collaborator; the fields themselves are listed in the spec. -/
inductive FatXDirent where
  | mk (file_name : String) (file_name_bytes : List Nat)
       (first_cluster : Nat) (file_size : Nat) (attributes : Nat)
       (creation_time : Option FatXTimeStamp)
       (last_write_time : Option FatXTimeStamp)
       (last_access_time : Option FatXTimeStamp)
       (is_directory : Bool) (children : List FatXDirent)

def FatXDirent.file_name : FatXDirent → String
  | .mk v _ _ _ _ _ _ _ _ _ => v

def FatXDirent.file_name_bytes : FatXDirent → List Nat
  | .mk _ v _ _ _ _ _ _ _ _ => v

def FatXDirent.first_cluster : FatXDirent → Nat
  | .mk _ _ v _ _ _ _ _ _ _ => v

def FatXDirent.file_size : FatXDirent → Nat
  | .mk _ _ _ v _ _ _ _ _ _ => v

def FatXDirent.attributes : FatXDirent → Nat
  | .mk _ _ _ _ v _ _ _ _ _ => v

def FatXDirent.creation_time : FatXDirent → Option FatXTimeStamp
  | .mk _ _ _ _ _ v _ _ _ _ => v

def FatXDirent.last_write_time : FatXDirent → Option FatXTimeStamp
  | .mk _ _ _ _ _ _ v _ _ _ => v

def FatXDirent.last_access_time : FatXDirent → Option FatXTimeStamp
  | .mk _ _ _ _ _ _ _ v _ _ => v

def FatXDirent.is_directory : FatXDirent → Bool
  | .mk _ _ _ _ _ _ _ _ v _ => v

def FatXDirent.children : FatXDirent → List FatXDirent
  | .mk _ _ _ _ _ _ _ _ _ v => v

/-- The local helper defined inside is_valid (orphan.py lines 67-68).
Over nonnegative Python ints, (attr and not VALID_FILE_ATTRIBUTES) == 0 is
equivalent to attr being a bitwise subset of the mask, i.e. attr AND mask ==
attr.  VALID_FILE_ATTRIBUTES itself lives in the constants module, outside
the two source files, so the mask is a parameter here.
Note that the source defines this helper but never calls it. -/
def is_valid_attributes (validFileAttributes attr : Nat) : Bool :=
  attr &&& validFileAttributes == attr

/-- orphan.py FatXOrphan.is_valid (lines 55-102), translated check for check:
first_cluster against volume.max_clusters, then file_name_bytes against
VALID_CHARS, then the three timestamps.  As in the source, the locally
defined attribute check is never invoked. -/
def FatXDirent.is_valid (todayYear : Nat) (vol : FatXVolume) (d : FatXDirent) : Bool :=
  if d.first_cluster > vol.maxClusters then false
  else if ¬ (d.file_name_bytes.all fun c => VALID_CHARS.contains c) then false
  else if ¬ (is_valid_date todayYear d.creation_time &&
             is_valid_date todayYear d.last_write_time &&
             is_valid_date todayYear d.last_access_time) then false
  else true

/-! ### The orphan recovery engine (orphan.py FatXOrphan.recover, lines 115-153)

Filesystem side effects are modelled as an event trace; the environment
decides, per path, whether os.path.exists holds and whether os.makedirs,
open/write, or the timestamp restoration raise.  The shared read cursor is
threaded explicitly. -/

inductive RecEvent where
  | logInfo (path : String)
  | mkdir (path : String)
  | mkdirFailed (path : String)
  | fileWritten (path : String) (content : List Nat)
  | fileWriteFailed (path : String)
  | tsRestored (path : String)
  | tsRestoreFailed (path : String)
deriving DecidableEq

structure FsEnv where
  pathExists : String → Bool
  mkdirFails : String → Bool
  openFails : String → Bool
  setTsFails : String → Bool

/-- Modelled from the spec: the best-effort timestamp-application operation
_set_ts supplied by the FatXDirent base class; it either succeeds or raises. -/
def setTs (env : FsEnv) (p : String) : Except Unit Unit :=
  if env.setTsFails p then .error () else .ok ()

/-- The bare except around self._set_ts at the end of recover: a raising
restoration is caught and logged as an error event, never propagated. -/
def tsEvent (env : FsEnv) (p : String) : RecEvent :=
  match setTs env p with
  | .ok _ => .tsRestored p
  | .error _ => .tsRestoreFailed p

/-- The chunked copy loop in the file branch of recover: while remains > 0,
read min(remains, bufsize) bytes from the volume stream and append them to
the output file.  The source always runs it with bufsize = 0x100000; a zero
bufsize (on which the source loop would not terminate) returns nothing. -/
def copyLoop (data : List Nat) (bufsize remains pos : Nat) : List Nat × Nat :=
  if h : remains = 0 then ([], pos)
  else if hb : bufsize = 0 then ([], pos)
  else
    let rd := min remains bufsize
    let r1 := streamRead data pos rd
    let r2 := copyLoop data bufsize (remains - rd) r1.2
    (r1.1 ++ r2.1, r2.2)
termination_by remains
decreasing_by
  have h1 : 1 ≤ min remains bufsize := by
    exact le_min (Nat.one_le_iff_ne_zero.mpr h) (Nat.one_le_iff_ne_zero.mpr hb)
  omega

mutual

/-- FatXOrphan.recover: compute whole_path, seek to first_cluster, log, then
either the directory branch (create the directory unless it exists, aborting
this entry on failure, then recurse into children) or the file branch
(chunk-copy file_size bytes into the destination file, logging failure), and
finally the guarded timestamp restoration, which the directory-creation
failure path returns before reaching. -/
def FatXDirent.recover (env : FsEnv) (vol : FatXVolume) :
    FatXDirent → String → Nat → List RecEvent × Nat
  | .mk file_name _ first_cluster file_size _ _ _ _ isDir children, path, _pos =>
    let whole := path ++ "/" ++ file_name
    let pos1 := vol.clusterByteOffset first_cluster
    if isDir then
      if env.pathExists whole then
        let r := recoverList env vol children whole pos1
        (.logInfo whole :: (r.1 ++ [tsEvent env whole]), r.2)
      else if env.mkdirFails whole then
        ([.logInfo whole, .mkdirFailed whole], pos1)
      else
        let r := recoverList env vol children whole pos1
        (.logInfo whole :: .mkdir whole :: (r.1 ++ [tsEvent env whole]), r.2)
    else
      if env.openFails whole then
        ([.logInfo whole, .fileWriteFailed whole, tsEvent env whole], pos1)
      else
        let r := copyLoop vol.data 0x100000 file_size pos1
        ([.logInfo whole, .fileWritten whole r.1, tsEvent env whole], r.2)

/-- The for-loop over self.children: each child recovers into the parent's
whole_path, in the existing order, threading the shared cursor. -/
def recoverList (env : FsEnv) (vol : FatXVolume) :
    List FatXDirent → String → Nat → List RecEvent × Nat
  | [], _, pos => ([], pos)
  | c :: cs, path, pos =>
    let r1 := FatXDirent.recover env vol c path pos
    let r2 := recoverList env vol cs path r1.2
    (r1.1 ++ r2.1, r2.2)

end

/-- The event trace of one recover call (the cursor starts anywhere; recover
seeks before reading, so the trace is cursor-independent, see below). -/
def recoverEvents (env : FsEnv) (vol : FatXVolume) (d : FatXDirent) (path : String) :
    List RecEvent :=
  (FatXDirent.recover env vol d path 0).1

/-- Whether a trace contains a timestamp-restoration attempt. -/
def hasTsEvent (evs : List RecEvent) : Bool :=
  evs.any fun e =>
    match e with
    | .tsRestored _ => true
    | .tsRestoreFailed _ => true
    | _ => false

/-! ### The signature carving contract (signature.py FatXSignature) -/

/-- The per-instance state of a signature: self.length (defaults to 0),
self.name (defaults to None), the working endian mode and the construction
offset.  The volume reference is passed separately. -/
structure FatXSignature where
  length : Nat
  name : Option String
  endian : String
  offset : Nat

/-- FatXSignature.get_file_name (signature.py lines 106-126): returns
self.name when present; otherwise generates classname.lower() followed by
the per-class counter and increments the counter.  The class-level
Unnamed_Counter attribute is hasattr-checked and initialised to 1 on first
use; here it is the explicit state ctr, None meaning not yet set. -/
def get_file_name (className : String) (sigName : Option String) (ctr : Option Nat) :
    String × Option Nat :=
  match sigName with
  | some n => (n, ctr)
  | none =>
    let c := match ctr with
      | none => 1
      | some k => k
    (className.toLower ++ Nat.repr c, some (c + 1))

/-- N successive get_file_name calls on unnamed instances of one class,
threading the per-class counter; returns the generated names in order. -/
def genNames (className : String) (ctr : Option Nat) : Nat → List String
  | 0 => []
  | n + 1 =>
    let r := get_file_name className none ctr
    r.1 :: genNames className r.2 n

/-- FatXSignature.recover (signature.py lines 128-138): get the file name,
open path/file_name for truncating write (the file is created in every
case), and only when self.length is nonzero and below 0xffffffff seek to
offset 0 of the signature (absolute offset self._offset in the volume file
area, per seek and seek_file_area) and read self.length bytes into the file.
The result is the created file's path and content, plus the threaded
naming-counter state. -/
def FatXSignature.recover (vol : FatXVolume) (className : String) (ctr : Option Nat)
    (sig : FatXSignature) (path : String) : (String × List Nat) × Option Nat :=
  let r := get_file_name className sig.name ctr
  let whole := path ++ "/" ++ r.1
  if sig.length != 0 && sig.length < 0xffffffff then
    ((whole, (vol.data.drop sig.offset).take sig.length), r.2)
  else
    ((whole, []), r.2)

/-! ### Injectivity of the decimal rendering used by get_file_name -/

/-- The numeric value of a list of decimal digit characters. -/
def decVal (l : List Char) : Nat :=
  l.foldl (fun a c => a * 10 + (c.toNat - 48)) 0

/-! ### Concrete instances used by closed example theorems -/

/-- The timestamp 2020-01-01 00:00:00 from the spec's worked example. -/
def tsOld : FatXTimeStamp := ⟨2020, 1, 1, 0, 0, 0⟩

/-- The bytes of HELLO.TXT. -/
def helloBytes : List Nat := [0x48, 0x45, 0x4C, 0x4C, 0x4F, 0x2E, 0x54, 0x58, 0x54]

/-- An environment in which every filesystem operation succeeds and no
destination path pre-exists. -/
def envOk : FsEnv := ⟨fun _ => false, fun _ => false, fun _ => false, fun _ => false⟩

/-- An environment in which destination paths do not pre-exist and directory
creation fails. -/
def envNoDir : FsEnv := ⟨fun _ => false, fun _ => true, fun _ => false, fun _ => false⟩

/-- A 16-byte volume with 100 clusters and 4 bytes per cluster. -/
def vol16 : FatXVolume := ⟨100, List.range 16, fun c => 4 * c⟩

/-- A plausible file candidate: 4 bytes at cluster 2. -/
def fileDirent : FatXDirent :=
  .mk "HELLO.TXT" helloBytes 2 4 0 (some tsOld) (some tsOld) (some tsOld) false []

/-- A directory candidate containing fileDirent. -/
def dirDirent : FatXDirent :=
  .mk "DIR1" [0x44] 2 0 0x10 (some tsOld) (some tsOld) (some tsOld) true [fileDirent]

theorem decVal_append_singleton (l : List Char) (c : Char) :
    decVal (l ++ [c]) = decVal l * 10 + (c.toNat - 48) := by
  simp [decVal, List.foldl_append]

theorem digitChar_toNat (m : Nat) (h : m < 10) : (Nat.digitChar m).toNat = 48 + m := by
  interval_cases m <;> rfl

theorem toDigitsCore_eq_append (fuel : Nat) : ∀ (n : Nat) (ds : List Char),
    Nat.toDigitsCore 10 fuel n ds = Nat.toDigitsCore 10 fuel n [] ++ ds := by
  induction fuel with
  | zero => intro n ds; simp [Nat.toDigitsCore]
  | succ fuel ih =>
    intro n ds
    simp only [Nat.toDigitsCore]
    by_cases h : n / 10 = 0
    · simp [h]
    · simp only [h, if_false]
      rw [ih (n / 10) (Nat.digitChar (n % 10) :: ds),
          ih (n / 10) [Nat.digitChar (n % 10)]]
      simp

theorem decVal_toDigitsCore (fuel : Nat) : ∀ n : Nat, n ≤ fuel →
    decVal (Nat.toDigitsCore 10 fuel n []) = n := by
  induction fuel with
  | zero =>
    intro n hn
    interval_cases n
    simp [Nat.toDigitsCore, decVal]
  | succ fuel ih =>
    intro n hn
    simp only [Nat.toDigitsCore]
    by_cases h : n / 10 = 0
    · have hlt : n < 10 := by omega
      simp [h, decVal, digitChar_toNat (n % 10) (Nat.mod_lt n (by norm_num))]
      omega
    · simp only [h, if_false]
      rw [toDigitsCore_eq_append, decVal_append_singleton]
      have h10 : n / 10 ≤ fuel := by omega
      rw [ih (n / 10) h10, digitChar_toNat (n % 10) (Nat.mod_lt n (by omega))]
      omega

theorem decVal_repr (n : Nat) : decVal (Nat.repr n).data = n := by
  have h : (Nat.repr n).data = Nat.toDigitsCore 10 (n + 1) n [] := rfl
  rw [h]
  exact decVal_toDigitsCore (n + 1) n (Nat.le_succ n)

theorem nat_repr_injective : Function.Injective Nat.repr := by
  intro m n h
  have h2 := congrArg (fun s => decVal s.data) h
  simpa [decVal_repr] using h2

theorem string_append_left_cancel {s a b : String} (h : s ++ a = s ++ b) : a = b := by
  have hd := congrArg String.data h
  simp only [String.data_append] at hd
  cases a
  cases b
  exact congrArg String.mk (List.append_cancel_left hd)

/-! ### Correctness of the chunked copy loop -/

theorem copyLoop_spec (data : List Nat) (bufsize : Nat) (hb : 0 < bufsize) :
    ∀ remains pos, pos + remains ≤ data.length →
    copyLoop data bufsize remains pos = ((data.drop pos).take remains, pos + remains) := by
  intro remains
  induction remains using Nat.strong_induction_on with
  | _ remains ih =>
    intro pos hle
    rw [copyLoop]
    by_cases h0 : remains = 0
    · subst h0
      simp
    · have hbne : ¬ bufsize = 0 := by omega
      simp only [h0, hbne, dite_false]
      have hrd1 : 1 ≤ min remains bufsize := le_min (by omega) (by omega)
      have hrdle : min remains bufsize ≤ remains := min_le_left _ _
      have hbuflen : ((data.drop pos).take (min remains bufsize)).length
          = min remains bufsize := by
        rw [List.length_take, List.length_drop]
        omega
      have ihc := ih (remains - min remains bufsize) (by omega)
        (pos + min remains bufsize) (by omega)
      have hsplit : (data.drop pos).take remains
          = (data.drop pos).take (min remains bufsize)
            ++ (data.drop (pos + min remains bufsize)).take (remains - min remains bufsize) := by
        have hd : data.drop (pos + min remains bufsize)
            = (data.drop pos).drop (min remains bufsize) := by
          rw [List.drop_drop]
        rw [hd, ← List.take_add]
        congr 1
        omega
      simp only [streamRead, hbuflen, ihc, Prod.mk.injEq]
      constructor
      · rw [hsplit]
      · omega

/-! ### The recover trace does not depend on the incoming cursor position:
recover seeks to first_cluster before any read. -/

theorem recover_pos_indep (env : FsEnv) (vol : FatXVolume) (d : FatXDirent)
    (path : String) (pos pos' : Nat) :
    FatXDirent.recover env vol d path pos = FatXDirent.recover env vol d path pos' := by
  cases d
  simp only [FatXDirent.recover]

/-- The trace of the children loop is the concatenation, in order, of each
child's own trace into the parent path; in particular one child's outcome
cannot change a sibling's trace. -/
theorem recoverList_eq_flatten (env : FsEnv) (vol : FatXVolume) :
    ∀ (cs : List FatXDirent) (path : String) (pos : Nat),
    (recoverList env vol cs path pos).1
      = (cs.map fun c => recoverEvents env vol c path).flatten := by
  intro cs
  induction cs with
  | nil =>
    intro path pos
    simp [recoverList]
  | cons c cs ih =>
    intro path pos
    simp only [recoverList, List.map_cons, List.flatten_cons]
    rw [ih]
    have hc : (FatXDirent.recover env vol c path pos).1 = recoverEvents env vol c path :=
      congrArg Prod.fst (recover_pos_indep env vol c path pos 0)
    rw [hc]

/-- Directory branch, destination already exists: no creation is attempted,
the children are recovered in order, and the timestamp restoration ends the
trace. -/
theorem recover_dir_exists (env : FsEnv) (vol : FatXVolume) (path : String) (pos : Nat)
    (fn : String) (fnb : List Nat) (fc fs attrs : Nat)
    (ct lwt lat : Option FatXTimeStamp) (children : List FatXDirent)
    (hex : env.pathExists (path ++ "/" ++ fn) = true) :
    (FatXDirent.recover env vol
        (.mk fn fnb fc fs attrs ct lwt lat true children) path pos).1
      = .logInfo (path ++ "/" ++ fn)
        :: ((children.map fun c => recoverEvents env vol c (path ++ "/" ++ fn)).flatten
            ++ [tsEvent env (path ++ "/" ++ fn)]) := by
  simp only [FatXDirent.recover, hex, if_true]
  rw [recoverList_eq_flatten]

/-- Directory branch, destination missing and creation fails: the failure
is logged and recover returns with no child events and no timestamp
event. -/
theorem recover_dir_create_fails (env : FsEnv) (vol : FatXVolume) (path : String)
    (pos : Nat) (fn : String) (fnb : List Nat) (fc fs attrs : Nat)
    (ct lwt lat : Option FatXTimeStamp) (children : List FatXDirent)
    (hex : env.pathExists (path ++ "/" ++ fn) = false)
    (hmk : env.mkdirFails (path ++ "/" ++ fn) = true) :
    (FatXDirent.recover env vol
        (.mk fn fnb fc fs attrs ct lwt lat true children) path pos).1
      = [.logInfo (path ++ "/" ++ fn), .mkdirFailed (path ++ "/" ++ fn)] := by
  simp only [FatXDirent.recover, hex, hmk, Bool.false_eq_true, if_false, if_true]

/-- Directory branch, destination missing and creation succeeds: the mkdir
event precedes the children's traces and the trailing timestamp event. -/
theorem recover_dir_create_ok (env : FsEnv) (vol : FatXVolume) (path : String)
    (pos : Nat) (fn : String) (fnb : List Nat) (fc fs attrs : Nat)
    (ct lwt lat : Option FatXTimeStamp) (children : List FatXDirent)
    (hex : env.pathExists (path ++ "/" ++ fn) = false)
    (hmk : env.mkdirFails (path ++ "/" ++ fn) = false) :
    (FatXDirent.recover env vol
        (.mk fn fnb fc fs attrs ct lwt lat true children) path pos).1
      = .logInfo (path ++ "/" ++ fn) :: .mkdir (path ++ "/" ++ fn)
        :: ((children.map fun c => recoverEvents env vol c (path ++ "/" ++ fn)).flatten
            ++ [tsEvent env (path ++ "/" ++ fn)]) := by
  simp only [FatXDirent.recover, hex, hmk, Bool.false_eq_true, if_false, if_true]
  rw [recoverList_eq_flatten]

/-! ### Auto-naming characterization -/

theorem genNames_some (className : String) :
    ∀ (N k : Nat), genNames className (some k) N
      = (List.range' k N).map fun i => className.toLower ++ Nat.repr i := by
  intro N
  induction N with
  | zero =>
    intro k
    simp [genNames]
  | succ n ih =>
    intro k
    simp only [genNames, get_file_name, List.range'_succ, List.map_cons]
    rw [ih (k + 1)]

theorem genNames_none (className : String) (N : Nat) :
    genNames className none N
      = (List.range' 1 N).map fun i => className.toLower ++ Nat.repr i := by
  cases N with
  | zero => simp [genNames]
  | succ n =>
    simp only [genNames, get_file_name, List.range'_succ, List.map_cons]
    rw [genNames_some]

theorem genName_injective (className : String) :
    Function.Injective fun i => className.toLower ++ Nat.repr i := by
  intro i j hij
  exact nat_repr_injective (string_append_left_cancel hij)

/-! ### Claim theorems -/

/-- C8: for every candidate whose first_cluster exceeds the owning volume's
maximum cluster count, is_valid returns false regardless of all other
fields. -/
theorem cluster_bound_rejects (todayYear : Nat) (vol : FatXVolume) (d : FatXDirent)
    (h : vol.maxClusters < d.first_cluster) :
    d.is_valid todayYear vol = false := by
  unfold FatXDirent.is_valid
  simp [h]

/-- Witness for C8: the spec's example candidate with first_cluster 10000 on
a volume with 1000 clusters is rejected. -/
theorem cluster_bound_rejects_witness :
    (FatXDirent.mk "HELLO.TXT" helloBytes 10000 4096 0 (some tsOld) (some tsOld)
      (some tsOld) false []).is_valid 2026 ⟨1000, [], fun _ => 0⟩ = false :=
  cluster_bound_rejects 2026 ⟨1000, [], fun _ => 0⟩ _ (by decide)

/-- C6: a byte of file_name_bytes outside VALID_CHARS forces rejection; and
a candidate whose name bytes all lie in VALID_CHARS, whose first_cluster is
within the maximum cluster count, whose attributes lie within the valid mask
and whose three timestamps are present and valid is accepted. -/
theorem file_name_chars_decide (todayYear : Nat) (vol : FatXVolume) (d : FatXDirent)
    (mask : Nat) :
    ((∃ b ∈ d.file_name_bytes, b ∉ VALID_CHARS) → d.is_valid todayYear vol = false)
    ∧ ((∀ b ∈ d.file_name_bytes, b ∈ VALID_CHARS) →
       d.first_cluster ≤ vol.maxClusters →
       is_valid_attributes mask d.attributes = true →
       is_valid_date todayYear d.creation_time = true →
       is_valid_date todayYear d.last_write_time = true →
       is_valid_date todayYear d.last_access_time = true →
       d.is_valid todayYear vol = true) := by
  constructor
  · rintro ⟨b, hbmem, hbval⟩
    unfold FatXDirent.is_valid
    have hall : d.file_name_bytes.all (fun c => VALID_CHARS.contains c) = false := by
      rw [Bool.eq_false_iff]
      intro hcontra
      rw [List.all_eq_true] at hcontra
      have := hcontra b hbmem
      rw [List.contains_eq_any_beq] at this
      rw [List.any_eq_true] at this
      obtain ⟨x, hx, hbx⟩ := this
      rw [beq_iff_eq] at hbx
      exact hbval (hbx ▸ hx)
    by_cases hc : d.first_cluster > vol.maxClusters
    · rw [if_pos hc]
    · rw [if_neg hc, if_pos (by rw [hall]; decide)]
  · intro hname hcl _hattr hct hwt hat
    unfold FatXDirent.is_valid
    have hall : d.file_name_bytes.all (fun c => VALID_CHARS.contains c) = true := by
      rw [List.all_eq_true]
      intro b hb
      rw [List.contains_eq_any_beq, List.any_eq_true]
      exact ⟨b, hname b hb, beq_self_eq_true b⟩
    have hc : ¬ d.first_cluster > vol.maxClusters := by omega
    rw [if_neg hc, if_neg (by rw [hall]; decide), if_neg (by rw [hct, hwt, hat]; decide)]

/-- Witness for C6: the spec's example candidate HELLO.TXT at cluster 10 of
a 1000-cluster volume with valid 2020 timestamps is accepted; a name with
byte 0x2F (the path separator) is rejected. -/
theorem file_name_chars_decide_witness :
    (FatXDirent.mk "HELLO.TXT" helloBytes 10 4096 0 (some tsOld) (some tsOld)
      (some tsOld) false []).is_valid 2026 ⟨1000, [], fun _ => 0⟩ = true
    ∧ (FatXDirent.mk "A/B" [0x41, 0x2F, 0x42] 10 4096 0 (some tsOld) (some tsOld)
      (some tsOld) false []).is_valid 2026 ⟨1000, [], fun _ => 0⟩ = false := by
  constructor
  · exact (file_name_chars_decide 2026 ⟨1000, [], fun _ => 0⟩ _ 0).2
      (by decide) (by decide) (by decide) (by decide) (by decide) (by decide)
  · exact (file_name_chars_decide 2026 ⟨1000, [], fun _ => 0⟩ _ 0).1
      ⟨0x2F, by decide, by decide⟩

/-- C7: is_valid rejects when any of the three timestamps fails its check;
an absent timestamp fails; a year beyond the current year fails; a
non-constructible calendar value fails; and a present timestamp whose year
is at most the current year and whose components construct passes — only
the year is compared against today, so a future date within the current
year passes. -/
theorem timestamp_validation (todayYear : Nat) (vol : FatXVolume) (d : FatXDirent)
    (t : FatXTimeStamp) :
    ((is_valid_date todayYear d.creation_time = false
      ∨ is_valid_date todayYear d.last_write_time = false
      ∨ is_valid_date todayYear d.last_access_time = false) →
        d.is_valid todayYear vol = false)
    ∧ is_valid_date todayYear none = false
    ∧ (todayYear < t.year → is_valid_date todayYear (some t) = false)
    ∧ (datetimeConstructible t.year t.month t.day t.hour t.min t.sec = false →
        is_valid_date todayYear (some t) = false)
    ∧ (t.year ≤ todayYear →
        datetimeConstructible t.year t.month t.day t.hour t.min t.sec = true →
        is_valid_date todayYear (some t) = true) := by
  refine ⟨?_, rfl, ?_, ?_, ?_⟩
  · intro hbad
    unfold FatXDirent.is_valid
    by_cases hc : d.first_cluster > vol.maxClusters
    · rw [if_pos hc]
    · rw [if_neg hc]
      by_cases hn : ¬ (d.file_name_bytes.all fun c => VALID_CHARS.contains c)
      · rw [if_pos hn]
      · rw [if_neg hn, if_pos]
        rcases hbad with hb | hb | hb <;> rw [hb] <;> simp
  · intro hy
    simp only [is_valid_date]
    rw [if_pos (by omega)]
  · intro hdc
    simp only [is_valid_date]
    by_cases hy : ¬ (t.year ≤ todayYear)
    · rw [if_pos hy]
    · rw [if_neg hy, if_pos (by rw [hdc]; decide)]
  · intro hy hdc
    simp only [is_valid_date]
    rw [if_neg (by omega), if_neg (by rw [hdc]; decide)]

/-- Witness for C7: a candidate with a missing creation time is rejected; a
timestamp dated 2027 is rejected against current year 2026; month 13 is
rejected; 2020-01-01 passes; December 31 of the current year 2026 passes
even though it may lie in the future. -/
theorem timestamp_validation_witness :
    (FatXDirent.mk "HELLO.TXT" helloBytes 10 4096 0 none (some tsOld)
      (some tsOld) false []).is_valid 2026 ⟨1000, [], fun _ => 0⟩ = false
    ∧ is_valid_date 2026 (some ⟨2027, 1, 1, 0, 0, 0⟩) = false
    ∧ is_valid_date 2026 (some ⟨2020, 13, 1, 0, 0, 0⟩) = false
    ∧ is_valid_date 2026 (some tsOld) = true
    ∧ is_valid_date 2026 (some ⟨2026, 12, 31, 23, 59, 59⟩) = true := by
  refine ⟨?_, ?_, ?_, ?_, ?_⟩
  · exact (timestamp_validation 2026 ⟨1000, [], fun _ => 0⟩ _ tsOld).1 (Or.inl rfl)
  · exact (timestamp_validation 2026 ⟨1000, [], fun _ => 0⟩
      (.mk "" [] 0 0 0 none none none false []) ⟨2027, 1, 1, 0, 0, 0⟩).2.2.1 (by decide)
  · exact (timestamp_validation 2026 ⟨1000, [], fun _ => 0⟩
      (.mk "" [] 0 0 0 none none none false []) ⟨2020, 13, 1, 0, 0, 0⟩).2.2.2.1 (by decide)
  · exact (timestamp_validation 2026 ⟨1000, [], fun _ => 0⟩
      (.mk "" [] 0 0 0 none none none false []) tsOld).2.2.2.2 (by decide) (by decide)
  · exact (timestamp_validation 2026 ⟨1000, [], fun _ => 0⟩
      (.mk "" [] 0 0 0 none none none false []) ⟨2026, 12, 31, 23, 59, 59⟩).2.2.2.2
      (by decide) (by decide)

/-- C1 (code bug): the source defines is_valid_attributes inside is_valid
but never calls it, so a candidate whose attributes have a bit outside any
valid-attribute mask with bit 6 clear — in particular the FATX mask 0x37 —
still passes is_valid when all other checks pass, although the helper
itself rejects those attributes. -/
theorem attributes_check_never_invoked (mask : Nat) (h : mask.testBit 6 = false) :
    is_valid_attributes mask 0x40 = false
    ∧ (FatXDirent.mk "HELLO.TXT" helloBytes 10 4096 0x40 (some tsOld) (some tsOld)
        (some tsOld) false []).is_valid 2026 ⟨1000, [], fun _ => 0⟩ = true := by
  constructor
  · unfold is_valid_attributes
    rw [beq_eq_false_iff_ne]
    intro hc
    have hb := congrArg (fun x => Nat.testBit x 6) hc
    simp only [Nat.testBit_land, h, Bool.and_false] at hb
    exact absurd hb.symm (by decide)
  · decide

/-- Witness for C1's theorem at the concrete FATX attribute mask 0x37. -/
theorem attributes_check_never_invoked_witness :
    is_valid_attributes 0x37 0x40 = false
    ∧ (FatXDirent.mk "HELLO.TXT" helloBytes 10 4096 0x40 (some tsOld) (some tsOld)
        (some tsOld) false []).is_valid 2026 ⟨1000, [], fun _ => 0⟩ = true :=
  attributes_check_never_invoked 0x37 (by decide)

/-- C2: recovering a file candidate whose open succeeds, on a volume holding
enough data past the cluster's byte offset, writes exactly file_size bytes,
byte-for-byte equal to the volume bytes from that offset; and the copy loop
produces those bytes for every positive chunk size, so the result does not
depend on chunk boundary placement. -/
theorem file_recovery_exact (env : FsEnv) (vol : FatXVolume) (path : String) (pos : Nat)
    (fn : String) (fnb : List Nat) (fc fs attrs : Nat)
    (ct lwt lat : Option FatXTimeStamp) (children : List FatXDirent)
    (hopen : env.openFails (path ++ "/" ++ fn) = false)
    (hlen : vol.clusterByteOffset fc + fs ≤ vol.data.length) :
    (∀ bufsize, 0 < bufsize →
      (copyLoop vol.data bufsize fs (vol.clusterByteOffset fc)).1
        = (vol.data.drop (vol.clusterByteOffset fc)).take fs)
    ∧ ((vol.data.drop (vol.clusterByteOffset fc)).take fs).length = fs
    ∧ (FatXDirent.recover env vol
        (.mk fn fnb fc fs attrs ct lwt lat false children) path pos).1
      = [.logInfo (path ++ "/" ++ fn),
         .fileWritten (path ++ "/" ++ fn)
           ((vol.data.drop (vol.clusterByteOffset fc)).take fs),
         tsEvent env (path ++ "/" ++ fn)] := by
  refine ⟨?_, ?_, ?_⟩
  · intro bufsize hb
    exact congrArg Prod.fst (copyLoop_spec vol.data bufsize hb fs _ hlen)
  · rw [List.length_take, List.length_drop]
    omega
  · simp only [FatXDirent.recover, Bool.false_eq_true, if_false, hopen,
      copyLoop_spec vol.data 0x100000 (by norm_num) fs _ hlen]

/-- Witness for C2: a 4-byte file at cluster 2 of the 16-byte volume. -/
theorem file_recovery_exact_witness :
    (FatXDirent.recover envOk vol16
        (.mk "HELLO.TXT" helloBytes 2 4 0 (some tsOld) (some tsOld) (some tsOld)
          false []) "out" 0).1
      = [.logInfo ("out" ++ "/" ++ "HELLO.TXT"),
         .fileWritten ("out" ++ "/" ++ "HELLO.TXT")
           ((vol16.data.drop (vol16.clusterByteOffset 2)).take 4),
         tsEvent envOk ("out" ++ "/" ++ "HELLO.TXT")] :=
  (file_recovery_exact envOk vol16 "out" 0 "HELLO.TXT" helloBytes 2 4 0
    (some tsOld) (some tsOld) (some tsOld) [] rfl (by decide)).2.2

/-- C5: recovering a directory candidate creates the destination
subdirectory path/name only when it does not already exist (no error when
it does); a creation failure logs and stops this entry, producing no child
events and no timestamp event; otherwise every child is recovered in the
children order, each into the new directory, and one child's trace is a
function of that child alone, so a failing entry cannot affect its
siblings. -/
theorem directory_recovery (env : FsEnv) (vol : FatXVolume) (path : String) (pos : Nat)
    (fn : String) (fnb : List Nat) (fc fs attrs : Nat)
    (ct lwt lat : Option FatXTimeStamp) (children : List FatXDirent) :
    (env.pathExists (path ++ "/" ++ fn) = true →
      (FatXDirent.recover env vol
          (.mk fn fnb fc fs attrs ct lwt lat true children) path pos).1
        = .logInfo (path ++ "/" ++ fn)
          :: ((children.map fun c => recoverEvents env vol c (path ++ "/" ++ fn)).flatten
              ++ [tsEvent env (path ++ "/" ++ fn)]))
    ∧ (env.pathExists (path ++ "/" ++ fn) = false →
       env.mkdirFails (path ++ "/" ++ fn) = true →
      (FatXDirent.recover env vol
          (.mk fn fnb fc fs attrs ct lwt lat true children) path pos).1
        = [.logInfo (path ++ "/" ++ fn), .mkdirFailed (path ++ "/" ++ fn)])
    ∧ (env.pathExists (path ++ "/" ++ fn) = false →
       env.mkdirFails (path ++ "/" ++ fn) = false →
      (FatXDirent.recover env vol
          (.mk fn fnb fc fs attrs ct lwt lat true children) path pos).1
        = .logInfo (path ++ "/" ++ fn) :: .mkdir (path ++ "/" ++ fn)
          :: ((children.map fun c => recoverEvents env vol c (path ++ "/" ++ fn)).flatten
              ++ [tsEvent env (path ++ "/" ++ fn)])) := by
  exact ⟨recover_dir_exists env vol path pos fn fnb fc fs attrs ct lwt lat children,
    recover_dir_create_fails env vol path pos fn fnb fc fs attrs ct lwt lat children,
    recover_dir_create_ok env vol path pos fn fnb fc fs attrs ct lwt lat children⟩

/-- Witness for C5: recovering dirDirent into a world where nothing exists
and directory creation succeeds yields the mkdir event followed by the
single child's trace and the timestamp event. -/
theorem directory_recovery_witness :
    (FatXDirent.recover envOk vol16
        (.mk "DIR1" [0x44] 2 0 0x10 (some tsOld) (some tsOld) (some tsOld)
          true [fileDirent]) "out" 0).1
      = .logInfo ("out" ++ "/" ++ "DIR1") :: .mkdir ("out" ++ "/" ++ "DIR1")
        :: (([fileDirent].map fun c =>
              recoverEvents envOk vol16 c ("out" ++ "/" ++ "DIR1")).flatten
            ++ [tsEvent envOk ("out" ++ "/" ++ "DIR1")]) :=
  (directory_recovery envOk vol16 "out" 0 "DIR1" [0x44] 2 0 0x10
    (some tsOld) (some tsOld) (some tsOld) [fileDirent]).2.2 rfl rfl

/-- Counterexample to C3 as stated: when a directory candidate's destination
does not exist and its creation fails, recover returns after logging the
failure and never attempts timestamp restoration, so restoration is not
attempted after every failed case. -/
theorem ts_restore_skipped_on_mkdir_failure :
    (FatXDirent.recover envNoDir vol16 dirDirent "out" 0).1
      = [.logInfo ("out" ++ "/" ++ "DIR1"), .mkdirFailed ("out" ++ "/" ++ "DIR1")]
    ∧ hasTsEvent (FatXDirent.recover envNoDir vol16 dirDirent "out" 0).1 = false := by
  have hev : (FatXDirent.recover envNoDir vol16 dirDirent "out" 0).1
      = [RecEvent.logInfo ("out" ++ "/" ++ "DIR1"),
         RecEvent.mkdirFailed ("out" ++ "/" ++ "DIR1")] :=
    recover_dir_create_fails envNoDir vol16 "out" 0 "DIR1" [0x44] 2 0 0x10
      (some tsOld) (some tsOld) (some tsOld) [fileDirent] rfl rfl
  refine ⟨hev, ?_⟩
  rw [hev]
  rfl

/-- C3 amended: timestamp restoration on the destination path is attempted
exactly at the end of recover in every case except the directory-creation
failure, where recover returns early; a restoration failure is caught and
turned into an error-log event (never propagated — recover is total and the
trace ends with the logged event), and a succeeding restoration is logged
as applied. -/
theorem ts_restore_best_effort (env : FsEnv) (vol : FatXVolume) (d : FatXDirent)
    (path : String) (pos : Nat)
    (h : ¬ (d.is_directory = true
            ∧ env.pathExists (path ++ "/" ++ d.file_name) = false
            ∧ env.mkdirFails (path ++ "/" ++ d.file_name) = true)) :
    (FatXDirent.recover env vol d path pos).1.getLast?
      = some (tsEvent env (path ++ "/" ++ d.file_name))
    ∧ (setTs env (path ++ "/" ++ d.file_name) = .error () →
        tsEvent env (path ++ "/" ++ d.file_name)
          = .tsRestoreFailed (path ++ "/" ++ d.file_name))
    ∧ (setTs env (path ++ "/" ++ d.file_name) = .ok () →
        tsEvent env (path ++ "/" ++ d.file_name)
          = .tsRestored (path ++ "/" ++ d.file_name)) := by
  refine ⟨?_, ?_, ?_⟩
  · obtain ⟨fn, fnb, fc, fs, attrs, ct, lwt, lat, isDir, children⟩ := d
    simp only [FatXDirent.is_directory, FatXDirent.file_name] at h ⊢
    cases isDir with
    | true =>
      by_cases hex : env.pathExists (path ++ "/" ++ fn) = true
      · have := recover_dir_exists env vol path pos fn fnb fc fs attrs
          ct lwt lat children hex
        rw [this, ← List.cons_append, List.getLast?_concat]
      · have hex' : env.pathExists (path ++ "/" ++ fn) = false := by
          simpa using hex
        have hmk : env.mkdirFails (path ++ "/" ++ fn) = false := by
          rcases Bool.eq_false_or_eq_true (env.mkdirFails (path ++ "/" ++ fn)) with hh | hh
          · exact absurd ⟨rfl, hex', hh⟩ h
          · exact hh
        have := recover_dir_create_ok env vol path pos fn fnb fc fs attrs
          ct lwt lat children hex' hmk
        rw [this, ← List.cons_append, ← List.cons_append, List.getLast?_concat]
    | false =>
      by_cases hop : env.openFails (path ++ "/" ++ fn) = true
      · simp only [FatXDirent.recover, hop, Bool.false_eq_true, if_false, if_true]
        rfl
      · have hop' : env.openFails (path ++ "/" ++ fn) = false := by simpa using hop
        simp only [FatXDirent.recover, hop', Bool.false_eq_true, if_false]
        rfl
  · intro herr
    unfold tsEvent
    rw [herr]
  · intro hok
    unfold tsEvent
    rw [hok]

/-- Witness for the amended C3: a file candidate in an environment where
restoration fails still ends its trace with the caught, logged failure. -/
theorem ts_restore_best_effort_witness :
    (FatXDirent.recover ⟨fun _ => false, fun _ => false, fun _ => false, fun _ => true⟩
        vol16 fileDirent "out" 0).1.getLast?
      = some (tsEvent ⟨fun _ => false, fun _ => false, fun _ => false, fun _ => true⟩
          ("out" ++ "/" ++ fileDirent.file_name))
    ∧ tsEvent ⟨fun _ => false, fun _ => false, fun _ => false, fun _ => true⟩
        ("out" ++ "/" ++ fileDirent.file_name)
      = .tsRestoreFailed ("out" ++ "/" ++ fileDirent.file_name) := by
  have hth := ts_restore_best_effort
    ⟨fun _ => false, fun _ => false, fun _ => false, fun _ => true⟩
    vol16 fileDirent "out" 0 (by rw [show fileDirent.is_directory = false from rfl]; simp)
  exact ⟨hth.1, hth.2.1 rfl⟩

/-- C4: the default signature recover writes into path/get_file_name(); a
length of 0 or of the unknown sentinel 0xffffffff skips extraction and
yields an empty file; the bytes read never exceed length (no unbounded
read); and a signature parsed to length 16 at offset 0x1000 over a volume
with enough data produces exactly the 16 volume bytes starting at 0x1000. -/
theorem signature_recover_contract (vol : FatXVolume) (className path : String)
    (ctr : Option Nat) (sig : FatXSignature) :
    (sig.recover vol className ctr path).1.1
      = path ++ "/" ++ (get_file_name className sig.name ctr).1
    ∧ ((sig.length = 0 ∨ sig.length = 0xffffffff) →
        (sig.recover vol className ctr path).1.2 = [])
    ∧ (sig.recover vol className ctr path).1.2.length ≤ sig.length
    ∧ (∀ (data : List Nat) (mc : Nat) (cbo : Nat → Nat) (nm : Option String)
         (en : String), 0x1000 + 16 ≤ data.length →
        ((FatXSignature.mk 16 nm en 0x1000).recover ⟨mc, data, cbo⟩ className ctr path).1.2
          = (data.drop 0x1000).take 16
        ∧ ((FatXSignature.mk 16 nm en 0x1000).recover
            ⟨mc, data, cbo⟩ className ctr path).1.2.length = 16) := by
  refine ⟨?_, ?_, ?_, ?_⟩
  · unfold FatXSignature.recover
    split
    · rfl
    · rfl
  · intro hskip
    rcases hskip with hz | hs
    · simp [FatXSignature.recover, hz]
    · simp [FatXSignature.recover, hs]
  · unfold FatXSignature.recover
    split
    · exact le_trans (List.length_take_le _ _) (le_refl _)
    · simp
  · intro data mc cbo nm en hd
    have hcontent : ((FatXSignature.mk 16 nm en 0x1000).recover
        ⟨mc, data, cbo⟩ className ctr path).1.2 = (data.drop 0x1000).take 16 := by
      simp [FatXSignature.recover]
    refine ⟨hcontent, ?_⟩
    rw [hcontent, List.length_take, List.length_drop]
    omega

/-- Witness for C4: recovering a 16-byte signature at 0x1000 of a 0x1010
byte volume. -/
theorem signature_recover_contract_witness :
    ((FatXSignature.mk 16 none ">" 0x1000).recover
        ⟨0, List.replicate 0x1010 7, fun _ => 0⟩ "FooSignature" none "out").1.2
      = ((List.replicate 0x1010 7).drop 0x1000).take 16
    ∧ ((FatXSignature.mk 16 none ">" 0x1000).recover
        ⟨0, List.replicate 0x1010 7, fun _ => 0⟩ "FooSignature" none "out").1.2.length
      = 16 :=
  (signature_recover_contract ⟨0, List.replicate 0x1010 7, fun _ => 0⟩ "FooSignature"
    "out" none (FatXSignature.mk 16 none ">" 0x1000)).2.2.2
    (List.replicate 0x1010 7) 0 (fun _ => 0) none ">"
    (by rw [List.length_replicate])

/-- C10: the default signature recover creates (truncates) the destination
file in every case, even when extraction is skipped, leaving it empty; and
extraction is skipped for every length greater than or equal to 0xffffffff,
not only at the sentinel itself. -/
theorem signature_recover_always_creates (vol : FatXVolume) (className path : String)
    (ctr : Option Nat) (sig : FatXSignature) :
    (sig.recover vol className ctr path).1.1
      = path ++ "/" ++ (get_file_name className sig.name ctr).1
    ∧ (0xffffffff ≤ sig.length →
        (sig.recover vol className ctr path).1
          = (path ++ "/" ++ (get_file_name className sig.name ctr).1, [])) := by
  constructor
  · unfold FatXSignature.recover
    split
    · rfl
    · rfl
  · intro hge
    have hnot : ¬ (sig.length < 0xffffffff) := by omega
    simp [FatXSignature.recover, hnot]

/-- Witness for C10: a length of 0x100000000 (above the sentinel) still
creates the file and writes nothing. -/
theorem signature_recover_always_creates_witness :
    ((FatXSignature.mk 0x100000000 none ">" 0).recover vol16 "FooSignature" none "out").1
      = ("out" ++ "/" ++ (get_file_name "FooSignature" none none).1, []) :=
  (signature_recover_always_creates vol16 "FooSignature" "out" none
    (FatXSignature.mk 0x100000000 none ">" 0)).2 (by norm_num)

/-- C9: N successive unnamed get_file_name calls on one signature class
yield the names lowercased-classname 1 through N in that order, pairwise
distinct, the counter starting at 1 and increasing by one per call. -/
theorem auto_naming_sequence (className : String) (N : Nat) (h : 1 ≤ N) :
    genNames className none N
      = (List.range' 1 N).map (fun i => className.toLower ++ Nat.repr i)
    ∧ (genNames className none N).Nodup := by
  constructor
  · exact genNames_none className N
  · rw [genNames_none]
    exact List.Nodup.map (genName_injective className) (List.nodup_range' 1 N)

/-- Witness for C9 at N = 3: foosignature1, foosignature2, foosignature3,
pairwise distinct. -/
theorem auto_naming_sequence_witness :
    (genNames "FooSignature" none 3
      = (List.range' 1 3).map (fun i => "FooSignature".toLower ++ Nat.repr i))
    ∧ (genNames "FooSignature" none 3).Nodup :=
  auto_naming_sequence "FooSignature" 3 (by decide)

end FatxTools
